import Mathlib

/-!
Verification of the watcher audit-template validation, patch validation,
Action object lifecycle and decision-engine configuration, via a shallow
embedding of `watcher/api/controllers/v1/audit_template.py`,
`watcher/decision_engine/manager.py` and the Action object layer.
-/

namespace Watcher

/-- Goal catalog entry (`watcher.objects.Goal`): internal numeric `id`,
`uuid`, `name`. -/
structure Goal where
  id : Nat
  uuid : String
  name : String
deriving DecidableEq, Repr

/-- Strategy catalog entry (`watcher.objects.Strategy`): internal numeric
`id`, `uuid`, `name`, and `goal_id` of the owning Goal. -/
structure Strategy where
  id : Nat
  uuid : String
  name : String
  goal_id : Nat
deriving DecidableEq, Repr

/-- A JSON-like value, the shape of `audit_template.scope` documents.
Objects are ordered key/value lists, as produced by parsing a JSON object
(keys unique in practice; lookup takes the last binding, like Python dict
construction where a later duplicate key overwrites an earlier one). -/
inductive Json where
  | str (s : String)
  | num (n : Int)
  | bool (b : Bool)
  | null
  | arr (items : List Json)
  | obj (entries : List (String × Json))

/-- Python `key in dict` on a JSON object; `False` on non-objects. -/
def Json.hasKey (j : Json) (k : String) : Bool :=
  match j with
  | .obj entries => entries.any (fun p => p.1 == k)
  | _ => false

/-- Python `dict[key]` on a JSON object: last binding wins (dict
construction semantics); `none` when the key is absent or `j` is not an
object. -/
def Json.getKey (j : Json) (k : String) : Option Json :=
  match j with
  | .obj entries => ((entries.filter (fun p => p.1 == k)).getLast?).map (fun p => p.2)
  | _ => none

/-- Python dict comprehension lookup `{f x: x for x in l}[k]`: the last
element of `l` whose key `f x` equals `k` (later entries overwrite
earlier ones), `none` when no element matches (so `k in dict` is
`(mapLast l f k).isSome`). -/
def mapLast {α : Type} (l : List α) (f : α → String) (k : String) : Option α :=
  (l.filter (fun x => f x == k)).getLast?

/-- The incoming audit template of `AuditTemplatePostType.validate`:
`goal` is a mandatory UUID-or-name string, `strategy` an optional
UUID-or-name string (`none` models wsme Unset / absent), `scope` a JSON
array. -/
structure AuditTemplateIn where
  goal : String
  strategy : Option String
  scope : List Json

/-- The exceptions `AuditTemplatePostType.validate` and
`AuditTemplatePatchType.validate` can raise.
`incompatibleStrategy` carries the strategy name, the goal name, and the
enumerated choices list, each choice being the `(uuid, name)` pair the
code formats into the message.  `keyError` models the unhandled Python
`KeyError` raised by `audit_template.scope[0]` lacking a usable
`compute` entry. -/
inductive ValidationError where
  | invalidGoal (goal : String)
  | invalidStrategy (strategy : String)
  | incompatibleStrategy (strategy : String) (goal : String)
      (choices : List (String × String))
  | invalidScope
  | hostAggregatesConflict
  | operationNotPermitted
  | keyError
deriving DecidableEq, Repr

/-- Goal resolution in `AuditTemplatePostType.validate` (lines 130-138):
membership in `available_goal_uuids_map` first, then in
`available_goal_names_map`. -/
def resolveGoal (goals : List Goal) (ident : String) : Option Goal :=
  match mapLast goals (fun g => g.uuid) ident with
  | some g => some g
  | none => mapLast goals (fun g => g.name) ident

/-- A registered cluster-data-model collector: a name and, optionally, a
declared `SCHEMA` fragment.  The fragment is modelled as the predicate it
induces on the JSON value stored under the collector's key. -/
structure Collector where
  name : String
  schema : Option (Json → Bool)

/-- `AuditTemplatePostType._get_schemas`: the properties map of the built
schema, keeping exactly the collectors that declare a `SCHEMA`
attribute. -/
def getSchemas (collectors : List Collector) : List (String × (Json → Bool)) :=
  collectors.filterMap (fun c => c.schema.map (fun s => (c.name, s)))

/-- Modelled from the spec: `common_utils.Draft4Validator` is not under
src/.  Validation of a scope document against the schema built by
`AuditTemplatePostType._build_schema` (type array, items type object,
properties = `getSchemas`, additionalProperties false): every item must
be an object, every property key must be a declared collector schema key,
and the value must satisfy that collector's fragment. -/
def scopeSchemaValid (schemas : List (String × (Json → Bool))) (doc : List Json) : Bool :=
  doc.all (fun item =>
    match item with
    | .obj entries =>
        entries.all (fun p =>
          match mapLast schemas (fun q => q.1) p.1 with
          | some q => q.2 p.2
          | none => false)
    | _ => false)

/-- One `exclude`-branch step of the loop at lines 150-153: does
`rule["exclude"]` contain a resource with a `host_aggregates` key? -/
def excludeHitsHostAggregates (rule : Json) : Bool :=
  match rule.getKey "exclude" with
  | some (.arr resources) => resources.any (fun r => r.hasKey "host_aggregates")
  | _ => false

/-- The loop at lines 145-153 computing
`(include_host_aggregates, exclude_host_aggregates)` over
`audit_template.scope[0]["compute"]`.  Note the `elif`: a rule carrying a
`host_aggregates` key never reaches the `exclude` branch. -/
def scanHostAggregates : List Json → Bool × Bool
  | [] => (false, false)
  | rule :: rest =>
    let acc := scanHostAggregates rest
    if rule.hasKey "host_aggregates" then (true, acc.2)
    else if rule.hasKey "exclude" then (acc.1, excludeHitsHostAggregates rule || acc.2)
    else acc

/-- The scope part of `AuditTemplatePostType.validate` (lines 140-158):
skipped for a falsy (empty) scope; otherwise Draft4 schema validation,
then the `host_aggregates` include/exclude mutual-exclusion check over
the first element's `compute` list. -/
def checkScope (schemas : List (String × (Json → Bool))) (scope : List Json) :
    Except ValidationError Unit :=
  match scope with
  | [] => .ok ()
  | first :: _ =>
    if !scopeSchemaValid schemas scope then .error .invalidScope
    else
      match first.getKey "compute" with
      | some (.arr rules) =>
          let flags := scanHostAggregates rules
          if flags.1 && flags.2 then .error .hostAggregatesConflict
          else .ok ()
      | _ => .error .keyError

/-- `AuditTemplatePostType.validate` (lines 128-187).  Goal resolution by
UUID map then name map; scope validation; strategy resolution through
`available_strategies_map`, which the code keys by **uuid only**; the
goal/strategy incompatibility check whose error enumerates
`available_strategies`; and the final mutation forcing `goal` (and, when
present, `strategy`) to the canonical UUID. -/
def postValidate (goals : List Goal) (strategies : List Strategy)
    (schemas : List (String × (Json → Bool))) (t : AuditTemplateIn) :
    Except ValidationError AuditTemplateIn :=
  match resolveGoal goals t.goal with
  | none => Except.error (.invalidGoal t.goal)
  | some goal =>
    match checkScope schemas t.scope with
    | .error e => Except.error e
    | .ok _ =>
      match t.strategy with
      | none => Except.ok { t with goal := goal.uuid }
      | some sid =>
        match mapLast strategies (fun s => s.uuid) sid with
        | none => Except.error (.invalidStrategy sid)
        | some s =>
          if s.goal_id != goal.id then
            Except.error (.incompatibleStrategy s.name goal.name
              (strategies.map (fun s => (s.uuid, s.name))))
          else
            Except.ok { t with goal := goal.uuid, strategy := some s.uuid }

/-- A JSON-Patch operation as seen by `AuditTemplatePatchType.validate`:
`path`, `op`, and a value that starts out as a string identifier (or
absent) and is rewritten to the internal numeric id by the goal/strategy
patch validators. -/
inductive PatchValue where
  | str (s : String)
  | intId (n : Nat)
  | null
deriving DecidableEq, Repr

/-- Python truthiness of a patch value (`if goal:` / `if strategy:`). -/
def PatchValue.truthy : PatchValue → Bool
  | .str s => s ≠ ""
  | .intId n => n ≠ 0
  | .null => false

/-- Rendering of a patch value into the error payload
(`InvalidGoal(goal=goal)`). -/
def PatchValue.asIdent : PatchValue → String
  | .str s => s
  | .intId n => toString n
  | .null => "None"

/-- One JSON-Patch operation. -/
structure PatchOp where
  path : String
  op : String
  value : PatchValue
deriving DecidableEq, Repr

/-- Strategy resolution by UUID map then name map, as built in
`AuditTemplatePatchType._validate_strategy` (lines 232-241). -/
def resolveStrategyIdent (strategies : List Strategy) (ident : String) :
    Option Strategy :=
  match mapLast strategies (fun s => s.uuid) ident with
  | some s => some s
  | none => mapLast strategies (fun s => s.name) ident

/-- `AuditTemplatePatchType._validate_goal` (lines 210-225): rewrites the
path to `/goal_id`; when the value is truthy, resolves it through the
goal UUID map then the goal name map and rewrites the value to the
internal numeric id, else raises `InvalidGoal`.  A truthy non-string
value is in neither string-keyed map, hence `InvalidGoal`. -/
def validateGoalPatch (goals : List Goal) (p : PatchOp) :
    Except ValidationError PatchOp :=
  let p := { p with path := "/goal_id" }
  if p.value.truthy then
    match p.value with
    | .str ident =>
      match resolveGoal goals ident with
      | some g => Except.ok { p with value := .intId g.id }
      | none => Except.error (.invalidGoal ident)
    | v => Except.error (.invalidGoal v.asIdent)
  else Except.ok p

/-- `AuditTemplatePatchType._validate_strategy` (lines 227-243):
analogous, rewriting the path to `/strategy_id`. -/
def validateStrategyPatch (strategies : List Strategy) (p : PatchOp) :
    Except ValidationError PatchOp :=
  let p := { p with path := "/strategy_id" }
  if p.value.truthy then
    match p.value with
    | .str ident =>
      match resolveStrategyIdent strategies ident with
      | some s => Except.ok { p with value := .intId s.id }
      | none => Except.error (.invalidStrategy ident)
    | v => Except.error (.invalidStrategy v.asIdent)
  else Except.ok p

/-- `AuditTemplatePatchType.validate` (lines 198-208): a `/goal` patch
with op `remove` raises `OperationNotPermitted`; a `/goal` patch with any
other op runs `_validate_goal`; a `/strategy` patch runs
`_validate_strategy` (the check reads the possibly rewritten path, so a
goal patch, now at `/goal_id`, never reaches it).  The trailing
base-class `types.JsonPatchType.validate` is not under src/ and is
modelled from the spec as the identity on the patch. -/
def patchValidate (goals : List Goal) (strategies : List Strategy)
    (p : PatchOp) : Except ValidationError PatchOp :=
  let step1 : Except ValidationError PatchOp :=
    if p.path == "/goal" && p.op != "remove" then validateGoalPatch goals p
    else if p.path == "/goal" && p.op == "remove" then
      Except.error ValidationError.operationNotPermitted
    else Except.ok p
  match step1 with
  | .error e => Except.error e
  | .ok p1 =>
    if p1.path == "/strategy" then validateStrategyPatch strategies p1
    else Except.ok p1

/-- `GoalNotFound` / `StrategyNotFound`, the exceptions raised by the
objects-layer lookups and caught by the `AuditTemplate` wrapper. -/
inductive LookupError where
  | goalNotFound
  | strategyNotFound
deriving DecidableEq, Repr

/-- Modelled from the spec: `watcher.objects.Goal` is not under src/.
`Goal.get` fetches by UUID or internal numeric id and raises
`GoalNotFound` when no entity matches. -/
def goalObjGet (goals : List Goal) (v : String) : Except LookupError Goal :=
  match mapLast goals (fun g => g.uuid) v with
  | some g => Except.ok g
  | none =>
    match mapLast goals (fun g => toString g.id) v with
    | some g => Except.ok g
    | none => Except.error .goalNotFound

/-- Modelled from the spec: `Goal.get_by_name` fetches by name and raises
`GoalNotFound` when no entity matches. -/
def goalObjGetByName (goals : List Goal) (v : String) : Except LookupError Goal :=
  match mapLast goals (fun g => g.name) v with
  | some g => Except.ok g
  | none => Except.error .goalNotFound

/-- Modelled from the spec: `Strategy.get`, as `goalObjGet`. -/
def strategyObjGet (strategies : List Strategy) (v : String) :
    Except LookupError Strategy :=
  match mapLast strategies (fun s => s.uuid) v with
  | some s => Except.ok s
  | none =>
    match mapLast strategies (fun s => toString s.id) v with
    | some s => Except.ok s
    | none => Except.error .strategyNotFound

/-- Modelled from the spec: `Strategy.get_by_name`, as
`goalObjGetByName`. -/
def strategyObjGetByName (strategies : List Strategy) (v : String) :
    Except LookupError Strategy :=
  match mapLast strategies (fun s => s.name) v with
  | some s => Except.ok s
  | none => Except.error .strategyNotFound

/-- The lazily-resolved attributes of the API-representation
`AuditTemplate` wrapper. -/
structure ATWrapper where
  goal_uuid : Option String
  goal_name : Option String
  strategy_uuid : Option String
  strategy_name : Option String
  goal_id : Option Nat
  strategy_id : Option Nat
deriving DecidableEq, Repr

/-- A fresh wrapper: all lazily-resolved attributes at their class
defaults (None). -/
def ATWrapper.fresh : ATWrapper := ⟨none, none, none, none, none, none⟩

/-- `AuditTemplate._get_goal` (lines 260-276), parametric in the
UUID/int shape predicates (`common_utils.is_uuid_like` /
`is_int_like` are not under src/; the spec only requires a syntactic
shape test).  `value = none` models `wtypes.Unset`.  A `GoalNotFound`
from the lookup is swallowed (`except ...: pass`) and `none` is
returned; on success `goal_id` is set as a side effect. -/
def wrapperGetGoal (isUuidLike isIntLike : String → Bool) (goals : List Goal)
    (w : ATWrapper) (value : Option String) : ATWrapper × Option Goal :=
  match value with
  | none => (w, none)
  | some v =>
    let res :=
      if isUuidLike v || isIntLike v then goalObjGet goals v
      else goalObjGetByName goals v
    match res with
    | .ok g => ({ w with goal_id := some g.id }, some g)
    | .error _ => (w, none)

/-- `AuditTemplate._get_strategy` (lines 278-294), as
`wrapperGetGoal`. -/
def wrapperGetStrategy (isUuidLike isIntLike : String → Bool)
    (strategies : List Strategy) (w : ATWrapper) (value : Option String) :
    ATWrapper × Option Strategy :=
  match value with
  | none => (w, none)
  | some v =>
    let res :=
      if isUuidLike v || isIntLike v then strategyObjGet strategies v
      else strategyObjGetByName strategies v
    match res with
    | .ok s => ({ w with strategy_id := some s.id }, some s)
    | .error _ => (w, none)

/-- `AuditTemplate._set_goal_uuid` (lines 299-304): when the value is
truthy and differs from the cached `_goal_uuid`, reset the cache to None,
resolve, and cache the canonical UUID only when resolution produced a
goal. -/
def setGoalUuid (isUuidLike isIntLike : String → Bool) (goals : List Goal)
    (w : ATWrapper) (value : Option String) : ATWrapper :=
  let truthy := match value with | some v => v ≠ "" | none => false
  if truthy && w.goal_uuid ≠ value then
    let w1 := { w with goal_uuid := none }
    let r := wrapperGetGoal isUuidLike isIntLike goals w1 value
    match r.2 with
    | some g => { r.1 with goal_uuid := some g.uuid }
    | none => r.1
  else w

/-- `AuditTemplate._set_goal_name` (lines 319-324). -/
def setGoalName (isUuidLike isIntLike : String → Bool) (goals : List Goal)
    (w : ATWrapper) (value : Option String) : ATWrapper :=
  let truthy := match value with | some v => v ≠ "" | none => false
  if truthy && w.goal_name ≠ value then
    let w1 := { w with goal_name := none }
    let r := wrapperGetGoal isUuidLike isIntLike goals w1 value
    match r.2 with
    | some g => { r.1 with goal_name := some g.name }
    | none => r.1
  else w

/-- `AuditTemplate._set_strategy_uuid` (lines 309-314). -/
def setStrategyUuid (isUuidLike isIntLike : String → Bool)
    (strategies : List Strategy) (w : ATWrapper) (value : Option String) :
    ATWrapper :=
  let truthy := match value with | some v => v ≠ "" | none => false
  if truthy && w.strategy_uuid ≠ value then
    let w1 := { w with strategy_uuid := none }
    let r := wrapperGetStrategy isUuidLike isIntLike strategies w1 value
    match r.2 with
    | some s => { r.1 with strategy_uuid := some s.uuid }
    | none => r.1
  else w

/-- `AuditTemplate._set_strategy_name` (lines 329-334). -/
def setStrategyName (isUuidLike isIntLike : String → Bool)
    (strategies : List Strategy) (w : ATWrapper) (value : Option String) :
    ATWrapper :=
  let truthy := match value with | some v => v ≠ "" | none => false
  if truthy && w.strategy_name ≠ value then
    let w1 := { w with strategy_name := none }
    let r := wrapperGetStrategy isUuidLike isIntLike strategies w1 value
    match r.2 with
    | some s => { r.1 with strategy_name := some s.name }
    | none => r.1
  else w

/-- The Action states named by the tests. -/
def ActionStateSUCCEEDED : String := "SUCCEEDED"

/-- The terminal deleted marker `objects.action.State.DELETED`. -/
def ActionStateDELETED : String := "DELETED"

/-- The Action fields exercised by `watcher.tests.objects.test_action`. -/
structure ActionFields where
  uuid : String
  action_plan_id : Nat
  action_type : String
  input_parameters : String
  state : String
deriving DecidableEq, Repr

/-- Modelled from the spec: `watcher.objects.Action` is not under src/
(only its tests are).  An in-memory Action object holds the last-read
persisted snapshot next to the current field values; mutation touches
only the current copy. -/
structure ActionObj where
  snapshot : ActionFields
  current : ActionFields
deriving DecidableEq, Repr

/-- Modelled from the spec: a record freshly obtained via `get` /
`create` has its current values equal to the persisted snapshot. -/
def actionGet (f : ActionFields) : ActionObj := ⟨f, f⟩

/-- Modelled from the spec: `save` diffs the in-memory record against the
last-read persisted snapshot field by field and issues an update
containing only the changed fields, keyed by field name (numeric values
rendered for a uniform payload).  Matches `test_save`, which expects the
update payload for a state-only change to be exactly the state entry. -/
def actionSaveUpdates (a : ActionObj) : List (String × String) :=
  (if a.current.uuid ≠ a.snapshot.uuid then [("uuid", a.current.uuid)] else []) ++
  (if a.current.action_plan_id ≠ a.snapshot.action_plan_id then
    [("action_plan_id", toString a.current.action_plan_id)] else []) ++
  (if a.current.action_type ≠ a.snapshot.action_type then
    [("action_type", a.current.action_type)] else []) ++
  (if a.current.input_parameters ≠ a.snapshot.input_parameters then
    [("input_parameters", a.current.input_parameters)] else []) ++
  (if a.current.state ≠ a.snapshot.state then
    [("state", a.current.state)] else [])

/-- A persisted Action row: identity, state, and the soft-delete flag. -/
structure ActionRow where
  uuid : String
  state : String
  deleted : Bool
deriving DecidableEq, Repr

/-- Modelled from the spec: default `list` returns live (non-deleted)
records; deleted-inclusive listing returns all. -/
def dbList (db : List ActionRow) (includeDeleted : Bool) : List ActionRow :=
  db.filter (fun r => includeDeleted || !r.deleted)

/-- Modelled from the spec: `get` finds a record by UUID among the
records visible at the given deletion-visibility mode. -/
def dbGet (db : List ActionRow) (u : String) (includeDeleted : Bool) :
    Option ActionRow :=
  (dbList db includeDeleted).find? (fun r => r.uuid == u)

/-- Modelled from the spec and `test_soft_delete`: `soft_delete` flags
the record deleted and issues `update_action(uuid, state := DELETED)`;
the pair returned is the updated store and the update payload. -/
def dbSoftDelete (db : List ActionRow) (u : String) :
    List ActionRow × List (String × String) :=
  (db.map (fun r =>
     if r.uuid == u then { r with deleted := true, state := ActionStateDELETED }
     else r),
   [("state", ActionStateDELETED)])

/-- Modelled from the spec and `test_destroy`: `destroy` physically
removes the record. -/
def dbDestroy (db : List ActionRow) (u : String) : List ActionRow :=
  db.filter (fun r => r.uuid != u)

/-- Default of the `watcher_decision_engine.max_workers` option
(`decision_engine/manager.py`, lines 67-72): the maximum number of
threads used to execute strategies. -/
def maxWorkersDefault : Nat := 2

/-- Does the compute rule list contain a `host_aggregates` include
rule?  (The spec-level reading of "appears as an include rule".) -/
def hasIncludeHostAggregates (rules : List Json) : Bool :=
  rules.any (fun r => r.hasKey "host_aggregates")

/-- Does the compute rule list contain, nested under an `exclude` rule,
a `host_aggregates` exclude target?  (The spec-level reading of "appears
nested under an exclude rule".) -/
def hasNestedExcludeHostAggregates (rules : List Json) : Bool :=
  rules.any (fun r => excludeHitsHostAggregates r)

/-! ### Concrete catalog fixtures -/

/-- A sample goal with id 1. -/
def gServer : Goal := ⟨1, "g-uuid-1", "server_consolidation"⟩

/-- A second sample goal with id 2. -/
def gOther : Goal := ⟨2, "g-uuid-2", "dummy_goal"⟩

/-- A strategy owned by `gServer`. -/
def sDummy : Strategy := ⟨1, "s-uuid-1", "dummy", 1⟩

/-- A strategy owned by `gOther`. -/
def sOther : Strategy := ⟨2, "s-uuid-2", "other_strategy", 2⟩

/-- Sample goal catalog. -/
def sampleGoals : List Goal := [gServer, gOther]

/-- Sample strategy catalog. -/
def sampleStrategies : List Strategy := [sDummy, sOther]

/-- A compute collector whose declared schema fragment accepts any
value under its key. -/
def permissiveSchemas : List (String × (Json → Bool)) :=
  [("compute", fun _ => true)]

/-- A scope rule carrying both a `host_aggregates` key and an `exclude`
key with a nested `host_aggregates` target. -/
def bothKeysRule : Json :=
  .obj [("host_aggregates", .arr [.str "agg1"]),
        ("exclude", .arr [.obj [("host_aggregates", .arr [.str "agg2"])]])]

/-- A scope document whose first element carries `bothKeysRule` as its
single compute rule. -/
def bothKeysScope : List Json := [.obj [("compute", .arr [bothKeysRule])]]

end Watcher

namespace Watcher

/-! ### Claims -/

/-- C1: for Goal entries, resolution by UUID and by name in
`AuditTemplatePostType.validate` yields the same canonical record, and a
strategy referenced by its UUID validates; but a Strategy referenced by
its catalog name in a create request is rejected with `InvalidStrategy`,
because `available_strategies_map` is keyed by UUID only — contradicting
the attribute's own documentation ("Strategy UUID or name of the audit
template") and the patch path, which accepts both. -/
theorem strategy_name_rejected_on_create :
    resolveGoal sampleGoals "g-uuid-1" = some gServer ∧
    resolveGoal sampleGoals "server_consolidation" = some gServer ∧
    postValidate sampleGoals sampleStrategies permissiveSchemas
        ⟨"g-uuid-1", some "s-uuid-1", []⟩
      = Except.ok ⟨"g-uuid-1", some "s-uuid-1", []⟩ ∧
    sDummy ∈ sampleStrategies ∧
    sDummy.name = "dummy" ∧
    sDummy.uuid = "s-uuid-1" ∧
    postValidate sampleGoals sampleStrategies permissiveSchemas
        ⟨"g-uuid-1", some "dummy", []⟩
      = Except.error (.invalidStrategy "dummy") :=
  ⟨rfl, rfl, rfl, by decide, rfl, rfl, rfl⟩

/-- C2 counterexample: with goal `gServer` (id 1) and the incompatible
strategy `sOther` (goal_id 2), validation does fail with the
incompatible-strategy error, but the enumerated choices are all
available strategies — including `sOther` itself, whose goal_id differs
from the goal's id — not only the compatible ones. -/
theorem incompatible_choices_unfiltered :
    postValidate sampleGoals sampleStrategies permissiveSchemas
        ⟨"g-uuid-1", some "s-uuid-2", []⟩
      = Except.error (.incompatibleStrategy "other_strategy"
          "server_consolidation"
          [("s-uuid-1", "dummy"), ("s-uuid-2", "other_strategy")]) ∧
    (sampleStrategies.filter (fun s => s.goal_id == gServer.id)).map
        (fun s => (s.uuid, s.name))
      = [("s-uuid-1", "dummy")] ∧
    ([("s-uuid-1", "dummy"), ("s-uuid-2", "other_strategy")] :
        List (String × String))
      ≠ [("s-uuid-1", "dummy")] :=
  ⟨rfl, rfl, by decide⟩

/-- C2 amended: when the named Strategy resolves (by UUID) and its owning
Goal differs from the resolved Goal, validation fails with the
incompatible-strategy error, whose message enumerates all available
strategies (each as its UUID/name pair), not only those compatible with
the Goal. -/
theorem incompatible_strategy_error (goals : List Goal)
    (strategies : List Strategy) (schemas : List (String × (Json → Bool)))
    (t : AuditTemplateIn) (g : Goal) (s : Strategy) (sid : String)
    (hg : resolveGoal goals t.goal = some g)
    (hscope : checkScope schemas t.scope = .ok ())
    (hs : t.strategy = some sid)
    (hlook : mapLast strategies (fun x => x.uuid) sid = some s)
    (hmis : s.goal_id ≠ g.id) :
    postValidate goals strategies schemas t
      = Except.error (.incompatibleStrategy s.name g.name
          (strategies.map (fun x => (x.uuid, x.name)))) := by
  simp only [postValidate, hg, hscope, hs, hlook]
  simp [hmis]

/-- C2 amended witness at the `incompatible_choices_unfiltered`
catalog. -/
theorem incompatible_strategy_error_witness :
    postValidate sampleGoals sampleStrategies permissiveSchemas
        ⟨"g-uuid-1", some "s-uuid-2", []⟩
      = Except.error (.incompatibleStrategy sOther.name gServer.name
          (sampleStrategies.map (fun x => (x.uuid, x.name)))) :=
  incompatible_strategy_error sampleGoals sampleStrategies
    permissiveSchemas ⟨"g-uuid-1", some "s-uuid-2", []⟩ gServer sOther
    "s-uuid-2" rfl rfl rfl rfl (by decide)

/-- A key absent from a JSON object yields no lookup result. -/
theorem Json.getKey_eq_none {j : Json} {k : String}
    (h : j.hasKey k = false) : j.getKey k = none := by
  cases j <;> simp_all [Json.hasKey, Json.getKey]
  exact h

/-- The host-aggregates scan computes the include flag as "some rule has
a `host_aggregates` key" and the exclude flag as "some rule without a
`host_aggregates` key nests a `host_aggregates` target under its
`exclude` key" — the `elif` never lets one rule set both flags. -/
theorem scanHostAggregates_eq (rules : List Json) :
    scanHostAggregates rules
      = (hasIncludeHostAggregates rules,
         rules.any (fun r =>
           !r.hasKey "host_aggregates" && excludeHitsHostAggregates r)) := by
  induction rules with
  | nil => rfl
  | cons rule rest ih =>
    by_cases h1 : rule.hasKey "host_aggregates"
    · simp [scanHostAggregates, ih, hasIncludeHostAggregates, h1]
    · by_cases h2 : rule.hasKey "exclude"
      · simp [scanHostAggregates, ih, hasIncludeHostAggregates, h1, h2]
      · have hx : excludeHitsHostAggregates rule = false := by
          simp [excludeHitsHostAggregates,
            Json.getKey_eq_none (Bool.eq_false_iff.mpr h2)]
        simp [scanHostAggregates, ih, hasIncludeHostAggregates, h1, h2, hx]

/-- C3 counterexample: a scope document whose single compute rule
carries both a `host_aggregates` key and an `exclude` key nesting a
`host_aggregates` target.  `host_aggregates` appears both as an include
rule and nested under an `exclude` rule, yet scope validation accepts
the document and the whole audit-template validation succeeds. -/
theorem both_keys_rule_accepted :
    hasIncludeHostAggregates [bothKeysRule] = true ∧
    hasNestedExcludeHostAggregates [bothKeysRule] = true ∧
    checkScope permissiveSchemas bothKeysScope = .ok () ∧
    postValidate sampleGoals sampleStrategies permissiveSchemas
        ⟨"g-uuid-1", none, bothKeysScope⟩
      = Except.ok ⟨"g-uuid-1", none, bothKeysScope⟩ :=
  ⟨rfl, rfl, rfl, rfl⟩

/-- C3 amended: for a schema-valid scope document, the
`host_aggregates` conflict rejection fires iff some compute rule of the
first element carries a `host_aggregates` key and some compute rule
**without** a `host_aggregates` key nests a `host_aggregates` target
under `exclude`; a rule carrying both keys never sets the exclude flag
(the `elif` skips it), so both directions inside one rule are
accepted. -/
theorem host_aggregates_conflict_iff
    (schemas : List (String × (Json → Bool))) (first : Json)
    (rest rules : List Json)
    (hschema : scopeSchemaValid schemas (first :: rest) = true)
    (hcompute : first.getKey "compute" = some (.arr rules)) :
    checkScope schemas (first :: rest) = .error .hostAggregatesConflict
      ↔ hasIncludeHostAggregates rules = true ∧
        rules.any (fun r =>
          !r.hasKey "host_aggregates" && excludeHitsHostAggregates r)
          = true := by
  by_cases ha : hasIncludeHostAggregates rules <;>
    by_cases hb : rules.any (fun r =>
      !r.hasKey "host_aggregates" && excludeHitsHostAggregates r) <;>
    simp [checkScope, hschema, hcompute, scanHostAggregates_eq, ha, hb]

/-- The compute rules of the C3 witness: the include rule and the
exclude nesting live in two distinct rules. -/
def splitRules : List Json :=
  [.obj [("host_aggregates", .arr [.str "agg1"])],
   .obj [("exclude", .arr [.obj [("host_aggregates", .arr [.str "agg2"])]])]]

/-- The C3 witness scope document. -/
def splitScope : List Json := [.obj [("compute", .arr splitRules)]]

/-- C3 amended witness: with the include rule and the exclude nesting in
distinct rules, scope validation rejects with the conflict error. -/
theorem host_aggregates_conflict_iff_witness :
    checkScope permissiveSchemas splitScope
      = .error .hostAggregatesConflict :=
  (host_aggregates_conflict_iff permissiveSchemas
    (.obj [("compute", .arr splitRules)]) [] splitRules rfl rfl).mpr
    ⟨rfl, rfl⟩

/-- A lookup over keys all different from `k` yields nothing. -/
theorem mapLast_eq_none {α : Type} {l : List α} {f : α → String}
    {k : String} (h : ∀ x ∈ l, f x ≠ k) : mapLast l f k = none := by
  have hf : l.filter (fun x => f x == k) = [] := by
    rw [List.filter_eq_nil_iff]
    intro a ha
    simpa using h a ha
  simp [mapLast, hf]

/-- The keys of the built schema properties are exactly the names of
the collectors that declare a schema fragment. -/
theorem getSchemas_names (collectors : List Collector) :
    (getSchemas collectors).map Prod.fst
      = (collectors.filter (fun c => c.schema.isSome)).map
          (fun c => c.name) := by
  induction collectors with
  | nil => rfl
  | cons c cs ih =>
    cases h : c.schema <;>
      simp [getSchemas, List.filterMap_cons, h, ih, List.filter_cons] <;>
      simpa [getSchemas] using ih

/-- C4: the property set of each scope rule in the built schema equals
exactly the registered collectors declaring a SCHEMA fragment, and a
non-empty scope document containing a property key outside that set
fails schema validation, so `AuditTemplatePostType.validate` rejects it
with `InvalidScope`. -/
theorem schema_rejects_unknown_property (collectors : List Collector)
    (goals : List Goal) (strategies : List Strategy)
    (t : AuditTemplateIn) (g : Goal) (item : Json)
    (entries : List (String × Json)) (k : String) (v : Json)
    (hg : resolveGoal goals t.goal = some g)
    (hmem : item ∈ t.scope) (hobj : item = .obj entries)
    (hkv : (k, v) ∈ entries)
    (hout : k ∉ (getSchemas collectors).map Prod.fst) :
    ((getSchemas collectors).map Prod.fst
        = (collectors.filter (fun c => c.schema.isSome)).map
            (fun c => c.name)) ∧
    scopeSchemaValid (getSchemas collectors) t.scope = false ∧
    postValidate goals strategies (getSchemas collectors) t
      = Except.error .invalidScope := by
  have hkeys : ∀ q ∈ getSchemas collectors, q.1 ≠ k := by
    intro q hq hqk
    exact hout (List.mem_map.mpr ⟨q, hq, hqk⟩)
  have hnone : mapLast (getSchemas collectors) (fun q => q.1) k = none :=
    mapLast_eq_none hkeys
  have hvalid : scopeSchemaValid (getSchemas collectors) t.scope = false := by
    cases hx : scopeSchemaValid (getSchemas collectors) t.scope with
    | false => rfl
    | true =>
      exfalso
      have hitem := (List.all_eq_true.mp hx) item hmem
      rw [hobj] at hitem
      have hpair := (List.all_eq_true.mp hitem) (k, v) hkv
      rw [hnone] at hpair
      cases hpair
  obtain ⟨first, rest, hsc⟩ : ∃ first rest, t.scope = first :: rest := by
    cases hsc : t.scope with
    | nil => rw [hsc] at hmem; cases hmem
    | cons a l => exact ⟨a, l, rfl⟩
  have hcheck : checkScope (getSchemas collectors) t.scope
      = .error .invalidScope := by
    rw [hsc] at hvalid ⊢
    simp [checkScope, hvalid]
  refine ⟨getSchemas_names collectors, hvalid, ?_⟩
  simp [postValidate, hg, hcheck]

/-- The collector registry of the C4 witness: `compute` declares a
schema fragment, `storage` declares none. -/
def witnessCollectors : List Collector :=
  [⟨"compute", some (fun _ => true)⟩, ⟨"storage", none⟩]

/-- A scope document carrying the unknown property `bogus`. -/
def bogusScope : List Json := [.obj [("bogus", .null)]]

/-- C4 witness: concrete collectors, catalog and scope document with an
out-of-set property. -/
theorem schema_rejects_unknown_property_witness :
    ((getSchemas witnessCollectors).map Prod.fst
        = (witnessCollectors.filter (fun c => c.schema.isSome)).map
            (fun c => c.name)) ∧
    scopeSchemaValid (getSchemas witnessCollectors) bogusScope = false ∧
    postValidate sampleGoals sampleStrategies (getSchemas witnessCollectors)
        ⟨"g-uuid-1", none, bogusScope⟩
      = Except.error .invalidScope :=
  schema_rejects_unknown_property witnessCollectors sampleGoals
    sampleStrategies ⟨"g-uuid-1", none, bogusScope⟩ gServer
    (.obj [("bogus", .null)]) [("bogus", .null)] "bogus" .null
    rfl (List.mem_singleton.mpr rfl) rfl (List.mem_singleton.mpr rfl)
    (by simp [getSchemas, witnessCollectors])

/-- C5: whenever `AuditTemplatePostType.validate` succeeds, the returned
template stores the resolved Goal's canonical UUID in its goal field,
and, when a strategy was supplied, the resolved Strategy's canonical
UUID in its strategy field. -/
theorem canonical_uuid_on_success (goals : List Goal)
    (strategies : List Strategy)
    (schemas : List (String × (Json → Bool))) (t t' : AuditTemplateIn)
    (h : postValidate goals strategies schemas t = Except.ok t') :
    (∃ g, resolveGoal goals t.goal = some g ∧ t'.goal = g.uuid) ∧
    (∀ sid, t.strategy = some sid →
      ∃ s, mapLast strategies (fun x => x.uuid) sid = some s ∧
        t'.strategy = some s.uuid) := by
  unfold postValidate at h
  split at h
  · cases h
  · rename_i g hg
    split at h
    · cases h
    · split at h
      · rename_i hs
        simp only [Except.ok.injEq] at h
        subst h
        exact ⟨⟨g, hg, rfl⟩,
          fun sid hsid => by rw [hs] at hsid; cases hsid⟩
      · rename_i sid hs
        split at h
        · cases h
        · rename_i s hlook
          split at h
          · cases h
          · simp only [Except.ok.injEq] at h
            subst h
            refine ⟨⟨g, hg, rfl⟩, fun sid' hsid' => ?_⟩
            rw [hs] at hsid'
            cases hsid'
            exact ⟨s, hlook, rfl⟩

/-- C5 witness: a create request giving the goal by name and the
strategy by UUID. -/
theorem canonical_uuid_on_success_witness :
    (∃ g, resolveGoal sampleGoals "server_consolidation" = some g ∧
      "g-uuid-1" = g.uuid) ∧
    (∀ sid, (some "s-uuid-1" : Option String) = some sid →
      ∃ s, mapLast sampleStrategies (fun x => x.uuid) sid = some s ∧
        (some "s-uuid-1" : Option String) = some s.uuid) :=
  canonical_uuid_on_success sampleGoals sampleStrategies permissiveSchemas
    ⟨"server_consolidation", some "s-uuid-1", []⟩
    ⟨"g-uuid-1", some "s-uuid-1", []⟩ rfl

/-- C6: a JSON-Patch on `/goal` with op `remove` always fails with
`OperationNotPermitted`; a patch setting `/goal` (any other op) whose
value resolves to neither a known goal UUID nor name fails with
`InvalidGoal`; a patch setting `/strategy` whose value resolves to
neither a known strategy UUID nor name fails with `InvalidStrategy`. -/
theorem patch_goal_strategy_resolution (goals : List Goal)
    (strategies : List Strategy) :
    (∀ p : PatchOp, p.path = "/goal" → p.op = "remove" →
      patchValidate goals strategies p
        = Except.error .operationNotPermitted) ∧
    (∀ (p : PatchOp) (v : String), p.path = "/goal" → p.op ≠ "remove" →
      p.value = .str v → v ≠ "" → resolveGoal goals v = none →
      patchValidate goals strategies p
        = Except.error (.invalidGoal v)) ∧
    (∀ (p : PatchOp) (v : String), p.path = "/strategy" →
      p.value = .str v → v ≠ "" →
      resolveStrategyIdent strategies v = none →
      patchValidate goals strategies p
        = Except.error (.invalidStrategy v)) := by
  refine ⟨?_, ?_, ?_⟩
  · intro p hpath hop
    simp [patchValidate, hpath, hop]
  · intro p v hpath hop hval hv hres
    simp [patchValidate, hpath, hop, validateGoalPatch, hval,
      PatchValue.truthy, hv, hres]
  · intro p v hpath hval hv hres
    simp [patchValidate, hpath, validateStrategyPatch, hval,
      PatchValue.truthy, hv, hres]

/-- C6 witness: a goal removal, an unknown goal value, and an unknown
strategy value against empty catalogs. -/
theorem patch_goal_strategy_resolution_witness :
    patchValidate [] [] ⟨"/goal", "remove", .null⟩
      = Except.error .operationNotPermitted ∧
    patchValidate [] [] ⟨"/goal", "replace", .str "nope"⟩
      = Except.error (.invalidGoal "nope") ∧
    patchValidate [] [] ⟨"/strategy", "replace", .str "nope"⟩
      = Except.error (.invalidStrategy "nope") :=
  ⟨(patch_goal_strategy_resolution [] []).1 _ rfl rfl,
   (patch_goal_strategy_resolution [] []).2.1 _ "nope" rfl (by decide)
     rfl (by decide) rfl,
   (patch_goal_strategy_resolution [] []).2.2 _ "nope" rfl rfl
     (by decide) rfl⟩

/-- C7: for a record obtained via `get` and then modified only in its
state field, `save` issues an update containing exactly the state entry;
with no modification the update is empty (all unchanged fields are
absent). -/
theorem save_updates_only_changed (f : ActionFields) (s : String)
    (h : s ≠ f.state) :
    actionSaveUpdates (actionGet f) = [] ∧
    actionSaveUpdates ⟨f, { f with state := s }⟩ = [("state", s)] := by
  constructor
  · simp [actionGet, actionSaveUpdates]
  · simp [actionSaveUpdates, h]

/-- C7 witness: the `test_save` scenario, a state-only change to
SUCCEEDED. -/
theorem save_updates_only_changed_witness :
    actionSaveUpdates (actionGet ⟨"a-uuid", 2, "nop", "p", "PENDING"⟩)
      = [] ∧
    actionSaveUpdates ⟨⟨"a-uuid", 2, "nop", "p", "PENDING"⟩,
        ⟨"a-uuid", 2, "nop", "p", ActionStateSUCCEEDED⟩⟩
      = [("state", ActionStateSUCCEEDED)] :=
  save_updates_only_changed ⟨"a-uuid", 2, "nop", "p", "PENDING"⟩
    ActionStateSUCCEEDED (by decide)

/-- After a soft delete, every row carrying the targeted UUID is flagged
deleted with the terminal state marker. -/
theorem softDelete_mem {db : List ActionRow} {u : String} {r : ActionRow}
    (h : r ∈ (dbSoftDelete db u).1) (hru : r.uuid = u) :
    r.deleted = true ∧ r.state = ActionStateDELETED := by
  rcases List.mem_map.mp h with ⟨orig, horig, heq⟩
  by_cases hu : orig.uuid = u
  · simp only [hu, beq_self_eq_true, if_true] at heq
    subst heq
    exact ⟨rfl, rfl⟩
  · simp only [beq_eq_false_iff_ne.mpr hu, Bool.false_eq_true, if_false] at heq
    subst heq
    exact absurd hru hu

/-- C8: `soft_delete` issues the update payload setting state to the
terminal DELETED marker, flags the record, and hides it from default
(live-only) `get`/`list`; `destroy` removes it even from
deleted-inclusive queries. -/
theorem soft_delete_vs_destroy (db : List ActionRow) (u : String) :
    (dbSoftDelete db u).2 = [("state", ActionStateDELETED)] ∧
    (∀ r ∈ (dbSoftDelete db u).1, r.uuid = u →
      r.deleted = true ∧ r.state = ActionStateDELETED) ∧
    (∀ r ∈ dbList (dbSoftDelete db u).1 false, r.uuid ≠ u) ∧
    dbGet (dbSoftDelete db u).1 u false = none ∧
    (∀ r ∈ dbDestroy db u, r.uuid ≠ u) ∧
    dbGet (dbDestroy db u) u true = none := by
  have h3 : ∀ r ∈ dbList (dbSoftDelete db u).1 false, r.uuid ≠ u := by
    intro r hr hru
    have hmem : r ∈ (dbSoftDelete db u).1 := (List.mem_filter.mp hr).1
    have hdel := (softDelete_mem hmem hru).1
    have hlive := (List.mem_filter.mp hr).2
    simp [hdel] at hlive
  have h5 : ∀ r ∈ dbDestroy db u, r.uuid ≠ u := by
    intro r hr
    have hcond := (List.mem_filter.mp hr).2
    simpa using hcond
  refine ⟨rfl, fun r hr hru => softDelete_mem hr hru, h3, ?_, h5, ?_⟩
  · rw [dbGet]
    apply List.find?_eq_none.mpr
    intro r hr
    simpa using h3 r hr
  · rw [dbGet]
    apply List.find?_eq_none.mpr
    intro r hr
    have hr' : r ∈ dbDestroy db u := (List.mem_filter.mp hr).1
    simpa using h5 r hr'

/-- C8 witness: one live PENDING action. -/
theorem soft_delete_vs_destroy_witness :
    (dbSoftDelete [⟨"a-uuid", "PENDING", false⟩] "a-uuid").2
      = [("state", ActionStateDELETED)] ∧
    dbGet (dbSoftDelete [⟨"a-uuid", "PENDING", false⟩] "a-uuid").1
      "a-uuid" false = none ∧
    dbGet (dbDestroy [⟨"a-uuid", "PENDING", false⟩] "a-uuid")
      "a-uuid" true = none :=
  ⟨(soft_delete_vs_destroy [⟨"a-uuid", "PENDING", false⟩] "a-uuid").1,
   (soft_delete_vs_destroy
     [⟨"a-uuid", "PENDING", false⟩] "a-uuid").2.2.2.1,
   (soft_delete_vs_destroy
     [⟨"a-uuid", "PENDING", false⟩] "a-uuid").2.2.2.2.2⟩

/-- C10: setting any of the wrapper's goal/strategy identifier
attributes with an identifier that matches no catalog entry makes the
objects-layer lookup fail with GoalNotFound / StrategyNotFound, which
the wrapper swallows: the setter returns normally and leaves the
attribute None. -/
theorem unknown_identifier_swallowed (isU isI : String → Bool)
    (goals : List Goal) (strategies : List Strategy) (w : ATWrapper)
    (v : String) (hv : v ≠ "")
    (hgoals : ∀ g ∈ goals, g.uuid ≠ v ∧ g.name ≠ v ∧ toString g.id ≠ v)
    (hstrats : ∀ s ∈ strategies,
      s.uuid ≠ v ∧ s.name ≠ v ∧ toString s.id ≠ v)
    (hwu : w.goal_uuid ≠ some v) (hwn : w.goal_name ≠ some v)
    (hsu : w.strategy_uuid ≠ some v) (hsn : w.strategy_name ≠ some v) :
    goalObjGet goals v = .error .goalNotFound ∧
    goalObjGetByName goals v = .error .goalNotFound ∧
    strategyObjGet strategies v = .error .strategyNotFound ∧
    strategyObjGetByName strategies v = .error .strategyNotFound ∧
    (setGoalUuid isU isI goals w (some v)).goal_uuid = none ∧
    (setGoalName isU isI goals w (some v)).goal_name = none ∧
    (setStrategyUuid isU isI strategies w (some v)).strategy_uuid
      = none ∧
    (setStrategyName isU isI strategies w (some v)).strategy_name
      = none := by
  have hgu : mapLast goals (fun g => g.uuid) v = none :=
    mapLast_eq_none (fun g hg => (hgoals g hg).1)
  have hgi : mapLast goals (fun g => toString g.id) v = none :=
    mapLast_eq_none (fun g hg => (hgoals g hg).2.2)
  have hgn : mapLast goals (fun g => g.name) v = none :=
    mapLast_eq_none (fun g hg => (hgoals g hg).2.1)
  have hsuu : mapLast strategies (fun s => s.uuid) v = none :=
    mapLast_eq_none (fun s hs => (hstrats s hs).1)
  have hsii : mapLast strategies (fun s => toString s.id) v = none :=
    mapLast_eq_none (fun s hs => (hstrats s hs).2.2)
  have hsnn : mapLast strategies (fun s => s.name) v = none :=
    mapLast_eq_none (fun s hs => (hstrats s hs).2.1)
  have e1 : goalObjGet goals v = .error .goalNotFound := by
    simp [goalObjGet, hgu, hgi]
  have e2 : goalObjGetByName goals v = .error .goalNotFound := by
    simp [goalObjGetByName, hgn]
  have e3 : strategyObjGet strategies v = .error .strategyNotFound := by
    simp [strategyObjGet, hsuu, hsii]
  have e4 : strategyObjGetByName strategies v
      = .error .strategyNotFound := by
    simp [strategyObjGetByName, hsnn]
  have hwrapG : ∀ w' : ATWrapper,
      wrapperGetGoal isU isI goals w' (some v) = (w', none) := by
    intro w'
    by_cases hb : (isU v || isI v) = true <;>
      simp [wrapperGetGoal, hb, e1, e2]
  have hwrapS : ∀ w' : ATWrapper,
      wrapperGetStrategy isU isI strategies w' (some v) = (w', none) := by
    intro w'
    by_cases hb : (isU v || isI v) = true <;>
      simp [wrapperGetStrategy, hb, e3, e4]
  refine ⟨e1, e2, e3, e4, ?_, ?_, ?_, ?_⟩
  · simp [setGoalUuid, hv, hwu, hwrapG]
  · simp [setGoalName, hv, hwn, hwrapG]
  · simp [setStrategyUuid, hv, hsu, hwrapS]
  · simp [setStrategyName, hv, hsn, hwrapS]

/-- C10 witness: the identifier `unknown` against the sample catalogs
and a fresh wrapper, with a shape predicate classifying it as a name. -/
theorem unknown_identifier_swallowed_witness :
    goalObjGetByName sampleGoals "unknown" = .error .goalNotFound ∧
    (setGoalUuid (fun _ => false) (fun _ => false) sampleGoals
      ATWrapper.fresh (some "unknown")).goal_uuid = none ∧
    (setStrategyName (fun _ => false) (fun _ => false) sampleStrategies
      ATWrapper.fresh (some "unknown")).strategy_name = none :=
  ⟨(unknown_identifier_swallowed (fun _ => false) (fun _ => false)
      sampleGoals sampleStrategies ATWrapper.fresh "unknown" (by decide)
      (by decide) (by decide) (by decide) (by decide) (by decide)
      (by decide)).2.1,
   (unknown_identifier_swallowed (fun _ => false) (fun _ => false)
      sampleGoals sampleStrategies ATWrapper.fresh "unknown" (by decide)
      (by decide) (by decide) (by decide) (by decide) (by decide)
      (by decide)).2.2.2.2.1,
   (unknown_identifier_swallowed (fun _ => false) (fun _ => false)
      sampleGoals sampleStrategies ATWrapper.fresh "unknown" (by decide)
      (by decide) (by decide) (by decide) (by decide) (by decide)
      (by decide)).2.2.2.2.2.2.2⟩

end Watcher
